import Mathlib

/-!
Verification of the document ingestion/retrieval workflow of the
`reminder` repository (`src/reminder/domain/document/service.py`,
class `DocumentService`).

The Python service is shallowly embedded as pure Lean functions.  The
external collaborators (subscription oracle, repositories, S3 blob
store, SQS queue, content decoding) are passed in as explicit data and
functions in an environment record; the observable side effects of one
call (blob upload, metadata persistence, upload-record persistence,
queue enqueue) are returned as an ordered event trace, so that ordering
and fail-fast properties can be stated about a single execution.
Timestamps are modelled as integers, ids as naturals, member ids as
strings.
-/

namespace Reminder

/-- Modelled from the spec: `SubscriptionPlanType`
(`reminder/domain/subscription/enum.py` is not under `src/`).  The spec
fixes a closed enumeration FREE | PRO. -/
inductive SubscriptionPlanType where
  | FREE
  | PRO
deriving DecidableEq, Repr

/-- Modelled from the spec: the enum member's `.value`, rendered as a
string in the queue payload (`str(plan_type.value)` in the source); the
spec only requires the plan type as a string. -/
def SubscriptionPlanType.value : SubscriptionPlanType → String
  | .FREE => "FREE"
  | .PRO => "PRO"

/-- Modelled from the spec: `Subscription` carries the plan type and the
half-open quota period `[purchased_date, expire_date)`
(`reminder/domain/subscription/model.py` is not under `src/`). -/
structure Subscription where
  plan_type : SubscriptionPlanType
  purchased_date : Int
  expire_date : Int
deriving DecidableEq, Repr

/-- Modelled from the spec: `DocumentUpload` join record (member,
document, upload timestamp) used solely for quota accounting
(`reminder/domain/document/model.py` is not under `src/`). -/
structure DocumentUpload where
  member_id : String
  document_id : Nat
  upload_date : Int
deriving DecidableEq, Repr

/-- Modelled from the spec: document content format, a closed
enumeration (e.g. PDF/TEXT), with its string `.value` recorded as blob
metadata (`reminder/domain/document/enum.py` is not under `src/`). -/
inductive DocumentFormat where
  | PDF
  | TXT
deriving DecidableEq, Repr

/-- Modelled from the spec: the format enum member's string value. -/
def DocumentFormat.value : DocumentFormat → String
  | .PDF => "pdf"
  | .TXT => "txt"

/-- Modelled from the spec: the raw upload entity `EDocument`
(`reminder/domain/document/entity.py` is not under `src/`): raw byte
content, a target category id and a declared format. -/
structure EDocument where
  content_bytes : List Nat
  category_id : Nat
  format : DocumentFormat
deriving DecidableEq, Repr

/-- Modelled from the spec: `Category` owned by a member
(`reminder/domain/category/model.py` is not under `src/`). -/
structure Category where
  id : Nat
  name : String
deriving DecidableEq, Repr

/-- Modelled from the spec: derived `Question` with its delivered-count
(`reminder/domain/question/model.py` gives no field list under `src/`
for the parts this service reads). -/
structure Question where
  id : Nat
  question : String
  answer : String
  delivered_count : Nat
deriving DecidableEq, Repr

/-- Modelled from the spec: persisted `Document` metadata as read by the
retrieval workflow (`reminder/domain/document/model.py` is not under
`src/`): identity, storage key, name, nullable summary, processing
status, format, creation timestamp, owning category, derived
questions. -/
structure Document where
  id : Nat
  s3_key : String
  name : String
  summary : Option String
  status : String
  format : DocumentFormat
  created_at : Int
  category : Category
  questions : List Question
deriving DecidableEq, Repr

/-- Modelled from the spec: `DOCUMENT_MAX_LEN`
(`reminder/domain/document/constant.py` is not under `src/`); the spec
fixes the maximum character threshold at 15,000. -/
def DOCUMENT_MAX_LEN : Nat := 15000

/-- Errors raised by `DocumentService`, one constructor per exception
class of the source (`ValueError("Invalid Plan Type")` is
`invalidPlanType`); `subscriptionNotFound` is modelled from the spec
(the subscription service module is not under `src/`), and
`blobStoreFailure` models a failing blob-store call propagated
unmodified (spec section 7). -/
inductive DomainError where
  | subscriptionNotFound
  | freePlanDocumentUploadLimitExceed
  | proPlanDocumentUploadLimitExceed
  | invalidPlanType
  | documentMaxLengthExceed
  | categoryNotFound (category_id : Nat)
  | documentNotFound (document_id : Nat)
  | blobStoreFailure
deriving DecidableEq, Repr

/-- The SQS work-queue message payload built at `service.py:99`:
`{"s3_key": s3_key, "db_pk": document_id, "subscription_plan":
str(plan_type.value)}`. -/
structure SQSMessage where
  s3_key : String
  db_pk : Nat
  subscription_plan : String
deriving DecidableEq, Repr

/-- One observable side effect of an `upload_document` execution, in
source order: the S3 `upload_bytes_obj` call, `assign_s3_key` on the
entity, `document_repository.save`, `document_upload_repository.save`,
and `sqs_client.put`. -/
inductive Event where
  | blobUpload (key : String) (obj_bytes : List Nat) (format : String)
  | assignKey (key : String)
  | saveDocument (s3_key : String) (document_id : Nat)
  | saveDocumentUpload (member_id : String) (document_id : Nat) (upload_date : Int)
  | enqueue (msg : SQSMessage)
deriving DecidableEq, Repr

/-- `UploadDocumentResponse(id=document_id)`. -/
structure UploadDocumentResponse where
  id : Nat
deriving DecidableEq, Repr

/-- The environment of one `upload_document` call: the results the
external collaborators would return, plus the plan-limit constants
(`FREE_PLAN_MONTHLY_MAX_DOCUMENT_NUM`, `PRO_PLAN_MONTHLY_MAX_DOCUMENT_NUM`
live in `constant.py`, not under `src/`; the spec fixes no value, so
they are environment fields and the theorems quantify over them).
`subscription` is the subscription oracle's answer for the member
(`none` models `SubscriptionNotFound`); `document_uploads` is
`document_upload_repository.find_all_by_member_id`; `decode` is
`EDocument.decode_contenet_str` (entity code not under `src/`);
`find_category` is `category_repository.find_or_none_by_id` for the
member; `s3_upload_ok` injects blob-store success/failure; `s3_key` is
the value of `uuid.uuid4().hex`; `generated_document_id` the id
generated by `document_repository.save`; `now` the upload timestamp the
database assigns to the new `DocumentUpload` row. -/
structure UploadEnv where
  FREE_PLAN_MONTHLY_MAX_DOCUMENT_NUM : Nat
  PRO_PLAN_MONTHLY_MAX_DOCUMENT_NUM : Nat
  subscription : Option Subscription
  document_uploads : List DocumentUpload
  decode : EDocument → String
  find_category : Nat → Option Category
  s3_upload_ok : Bool
  s3_key : String
  generated_document_id : Nat
  now : Int

/-- `DocumentService.get_num_uploaded_documents_for_current_subscription_by_member_id`
(`service.py:148-163`): filter the member's upload records by
`doc.upload_date >= purchased_date and doc.upload_date < expire_date`
and count them.  The two repository fetches are abstracted as the
arguments. -/
def get_num_uploaded_documents_for_current_subscription_by_member_id
    (current_subscription : Subscription) (document_uploads : List DocumentUpload) : Nat :=
  (document_uploads.filter fun doc =>
    decide (current_subscription.purchased_date ≤ doc.upload_date ∧
      doc.upload_date < current_subscription.expire_date)).length

/-- The plan-limit check of `upload_document` (`service.py:63-70`),
including the `else: raise ValueError("Invalid Plan Type")` branch. -/
def checkPlanLimit (plan_type : SubscriptionPlanType) (num_uploaded : Nat)
    (free_max pro_max : Nat) : Option DomainError :=
  if plan_type = SubscriptionPlanType.FREE then
    if free_max ≤ num_uploaded then some DomainError.freePlanDocumentUploadLimitExceed
    else none
  else if plan_type = SubscriptionPlanType.PRO then
    if pro_max ≤ num_uploaded then some DomainError.proPlanDocumentUploadLimitExceed
    else none
  else
    some DomainError.invalidPlanType

/-- `DocumentService.upload_document` (`service.py:54-102`): resolve the
current subscription, compute the current-period upload count, enforce
the plan limit, check the decoded length against `DOCUMENT_MAX_LEN`,
resolve the category, upload the bytes to S3 under a fresh key, assign
the key to the entity, persist the document and the upload record, and
enqueue the worker message.  Returns the ordered trace of completed
external calls together with the result; an exception aborts the
remaining steps, leaving earlier side effects in place. -/
def upload_document (env : UploadEnv) (member_id : String) (edocument : EDocument) :
    List Event × Except DomainError UploadDocumentResponse :=
  match env.subscription with
  | none => ([], Except.error DomainError.subscriptionNotFound)
  | some current_subscription =>
    let current_subscription_num_uploaded_documents :=
      get_num_uploaded_documents_for_current_subscription_by_member_id
        current_subscription env.document_uploads
    let plan_type := current_subscription.plan_type
    match checkPlanLimit plan_type current_subscription_num_uploaded_documents
        env.FREE_PLAN_MONTHLY_MAX_DOCUMENT_NUM env.PRO_PLAN_MONTHLY_MAX_DOCUMENT_NUM with
    | some e => ([], Except.error e)
    | none =>
      if DOCUMENT_MAX_LEN ≤ (env.decode edocument).length then
        ([], Except.error DomainError.documentMaxLengthExceed)
      else
        match env.find_category edocument.category_id with
        | none => ([], Except.error (DomainError.categoryNotFound edocument.category_id))
        | some _category =>
          let s3_key := env.s3_key
          if env.s3_upload_ok then
            let document_id := env.generated_document_id
            ([Event.blobUpload s3_key edocument.content_bytes edocument.format.value,
              Event.assignKey s3_key,
              Event.saveDocument s3_key document_id,
              Event.saveDocumentUpload member_id document_id env.now,
              Event.enqueue ⟨s3_key, document_id, plan_type.value⟩],
             Except.ok ⟨document_id⟩)
          else
            ([Event.blobUpload s3_key edocument.content_bytes edocument.format.value],
             Except.error DomainError.blobStoreFailure)

/-- `QuestionResponseDto(id, question, answer)`. -/
structure QuestionResponseDto where
  id : Nat
  question : String
  answer : String
deriving DecidableEq, Repr

/-- `CategoryResponseDto(id, name)`. -/
structure CategoryResponseDto where
  id : Nat
  name : String
deriving DecidableEq, Repr

/-- `GetDocumentResponse` as assembled at `service.py:132-146`. -/
structure GetDocumentResponse where
  id : Nat
  status : String
  category : CategoryResponseDto
  documentName : String
  summary : Option String
  format : DocumentFormat
  createdAt : Int
  questions : List QuestionResponseDto
  content : String
deriving DecidableEq, Repr

/-- `DocumentResponseDto(id, documentName, summary, createdAt)`: the
lightweight projection returned per document by
`get_all_documents_by_category`. -/
structure DocumentResponseDto where
  id : Nat
  documentName : String
  summary : Option String
  createdAt : Int
deriving DecidableEq, Repr

/-- `GetAllDocumentsByCategoryResponse(documents=...)`. -/
structure GetAllDocumentsByCategoryResponse where
  documents : List DocumentResponseDto
deriving DecidableEq, Repr

/-- One observable external call of the retrieval workflow: an S3
`get_object` fetch. -/
inductive RetrievalEvent where
  | blobGet (key : String)
deriving DecidableEq, Repr

/-- The environment of the retrieval workflow: `find_by_id` and
`find_all_by_category_id` are the document repository, `find_category`
the category repository, `get_object_content` the decoded text of the
blob stored under a key (`s3_client.get_object` followed by
`decode_content_str`). -/
structure RetrievalEnv where
  find_by_id : String → Nat → Option Document
  find_all_by_category_id : String → Nat → List Document
  find_category : String → Nat → Option Category
  get_object_content : String → String

/-- `DocumentService.get_document_by_id` (`service.py:123-146`): look up
the document for the member, fetch and decode its blob, and assemble the
view; the question list keeps, in store order, exactly the questions
with `q.delivered_count > 0`. -/
def get_document_by_id (env : RetrievalEnv) (member_id : String) (document_id : Nat) :
    List RetrievalEvent × Except DomainError GetDocumentResponse :=
  match env.find_by_id member_id document_id with
  | none => ([], Except.error (DomainError.documentNotFound document_id))
  | some document =>
    let s3_key := document.s3_key
    let content := env.get_object_content s3_key
    ([RetrievalEvent.blobGet s3_key],
     Except.ok
       { id := document.id
         status := document.status
         category := ⟨document.category.id, document.category.name⟩
         documentName := document.name
         summary := document.summary
         format := document.format
         createdAt := document.created_at
         questions :=
           ((document.questions.filter fun q => decide (0 < q.delivered_count)).map
             fun q => ⟨q.id, q.question, q.answer⟩)
         content := content })

/-- `DocumentService.get_all_documents_by_category` (`service.py:104-121`):
check the category exists for the member, then return the lightweight
projection of every document in the category; no S3 call is made. -/
def get_all_documents_by_category (env : RetrievalEnv) (member_id : String) (category_id : Nat) :
    List RetrievalEvent × Except DomainError GetAllDocumentsByCategoryResponse :=
  match env.find_category member_id category_id with
  | none => ([], Except.error (DomainError.categoryNotFound category_id))
  | some _category =>
    let documents := env.find_all_by_category_id member_id category_id
    ([],
     Except.ok
       ⟨documents.map fun document =>
         ⟨document.id, document.name, document.summary, document.created_at⟩⟩)

/-! ### Helper definitions for stating properties -/

/-- The current-period upload count an `upload_document` call computes
for its environment. -/
def currentCount (env : UploadEnv) (sub : Subscription) : Nat :=
  get_num_uploaded_documents_for_current_subscription_by_member_id sub env.document_uploads

/-- The plan-limit check an `upload_document` call performs for its
environment. -/
def planCheck (env : UploadEnv) (sub : Subscription) : Option DomainError :=
  checkPlanLimit sub.plan_type (currentCount env sub)
    env.FREE_PLAN_MONTHLY_MAX_DOCUMENT_NUM env.PRO_PLAN_MONTHLY_MAX_DOCUMENT_NUM

/-- The plan's monthly maximum document count. -/
def planMax (env : UploadEnv) : SubscriptionPlanType → Nat
  | .FREE => env.FREE_PLAN_MONTHLY_MAX_DOCUMENT_NUM
  | .PRO => env.PRO_PLAN_MONTHLY_MAX_DOCUMENT_NUM

/-- The quota error a plan raises when its limit is reached. -/
def planLimitError : SubscriptionPlanType → DomainError
  | .FREE => DomainError.freePlanDocumentUploadLimitExceed
  | .PRO => DomainError.proPlanDocumentUploadLimitExceed

/-- The full success trace of an `upload_document` call. -/
def successTrace (env : UploadEnv) (member_id : String) (edocument : EDocument)
    (sub : Subscription) : List Event :=
  [Event.blobUpload env.s3_key edocument.content_bytes edocument.format.value,
   Event.assignKey env.s3_key,
   Event.saveDocument env.s3_key env.generated_document_id,
   Event.saveDocumentUpload member_id env.generated_document_id env.now,
   Event.enqueue ⟨env.s3_key, env.generated_document_id, sub.plan_type.value⟩]

def Event.isBlobUpload : Event → Bool
  | .blobUpload _ _ _ => true
  | _ => false

def Event.isAssignKey : Event → Bool
  | .assignKey _ => true
  | _ => false

def Event.isSaveDocument : Event → Bool
  | .saveDocument _ _ => true
  | _ => false

/-- The queue messages contained in an event trace, in order. -/
def enqueuedMessages (tr : List Event) : List SQSMessage :=
  tr.filterMap fun ev =>
    match ev with
    | .enqueue msg => some msg
    | _ => none

/-- Default event used for out-of-range trace indexing in statements
(indices are always constrained to be in range). -/
def defaultEvent : Event := Event.enqueue ⟨"", 0, ""⟩

/-- The upload-record store after `n` sequential `upload_document`
attempts within one period, starting from `env.document_uploads`: each
successful attempt persists one `DocumentUpload` row (member, generated
document id, timestamp `env.now`), a failed attempt persists nothing. -/
def runUploads (env : UploadEnv) (member_id : String) (edocument : EDocument) :
    Nat → List DocumentUpload
  | 0 => env.document_uploads
  | n + 1 =>
    let s := runUploads env member_id edocument n
    match (upload_document { env with document_uploads := s } member_id edocument).2 with
    | Except.ok r => s ++ [⟨member_id, r.id, env.now⟩]
    | Except.error _ => s

/-- The environment preconditions under which an upload attempt can fail
only at the plan-limit check: a current subscription exists, the upload
timestamp lies in its period, the decoded content is below the length
limit, the category exists, and the blob store succeeds. -/
def GoodUploadEnv (env : UploadEnv) (edocument : EDocument) (sub : Subscription) : Prop :=
  env.subscription = some sub ∧
  sub.purchased_date ≤ env.now ∧ env.now < sub.expire_date ∧
  (env.decode edocument).length < DOCUMENT_MAX_LEN ∧
  (∃ cat, env.find_category edocument.category_id = some cat) ∧
  env.s3_upload_ok = true

/-! ### Concrete fixtures used by the witnesses -/

/-- A concrete document with one delivered and one undelivered
question. -/
def docW : Document :=
  ⟨5, "k1", "doc", some "sum", "PROCESSED", DocumentFormat.TXT, 100, ⟨7, "cat"⟩,
   [⟨1, "q1", "a1", 2⟩, ⟨2, "q2", "a2", 0⟩, ⟨3, "q3", "a3", 1⟩]⟩

/-- A concrete retrieval environment: document 5 and category 7 exist,
nothing else does. -/
def retEnvW : RetrievalEnv where
  find_by_id := fun _ document_id => if document_id = 5 then some docW else none
  find_all_by_category_id := fun _ category_id => if category_id = 7 then [docW] else []
  find_category := fun _ category_id => if category_id = 7 then some ⟨7, "cat"⟩ else none
  get_object_content := fun _ => "hello"

/-- A concrete upload request targeting category 7. -/
def edocW : EDocument := ⟨[1, 2, 3], 7, DocumentFormat.TXT⟩

/-- A concrete upload environment on which every check passes:
FREE plan with limit 3, period `[0, 10)`, upload timestamp 5, no prior
uploads, small decoded content, category 7 exists, blob store up. -/
def envW : UploadEnv where
  FREE_PLAN_MONTHLY_MAX_DOCUMENT_NUM := 3
  PRO_PLAN_MONTHLY_MAX_DOCUMENT_NUM := 20
  subscription := some ⟨SubscriptionPlanType.FREE, 0, 10⟩
  document_uploads := []
  decode := fun _ => "abc"
  find_category := fun category_id => if category_id = 7 then some ⟨7, "cat"⟩ else none
  s3_upload_ok := true
  s3_key := "key1"
  generated_document_id := 11
  now := 5

/-- `envW` with three in-period uploads already recorded: the FREE limit
is reached. -/
def envFullW : UploadEnv :=
  { envW with document_uploads := [⟨"m1", 1, 1⟩, ⟨"m1", 2, 2⟩, ⟨"m1", 3, 3⟩] }

/-- `envW` with decoded content of exactly `DOCUMENT_MAX_LEN`
characters. -/
def envBigW : UploadEnv :=
  { envW with decode := fun _ => String.mk (List.replicate DOCUMENT_MAX_LEN 'a') }

/-- `envW` with a failing blob store. -/
def envS3DownW : UploadEnv := { envW with s3_upload_ok := false }

/-- `envW` without a current subscription. -/
def envNoSubW : UploadEnv := { envW with subscription := none }

/-- `envW` in which no category exists (in particular not category 7 of
`edocW`). -/
def envNoCatW : UploadEnv := { envW with find_category := fun _ => none }

/-! ### Case analysis of `upload_document` -/

/-- Exhaustive case analysis of one `upload_document` execution: it is
one of six outcomes, each with its exact trace and result. -/
lemma upload_document_cases (env : UploadEnv) (m : String) (e : EDocument) :
    (env.subscription = none ∧
      upload_document env m e = ([], Except.error DomainError.subscriptionNotFound)) ∨
    (∃ sub err, env.subscription = some sub ∧ planCheck env sub = some err ∧
      upload_document env m e = ([], Except.error err)) ∨
    (∃ sub, env.subscription = some sub ∧ planCheck env sub = none ∧
      DOCUMENT_MAX_LEN ≤ (env.decode e).length ∧
      upload_document env m e = ([], Except.error DomainError.documentMaxLengthExceed)) ∨
    (∃ sub, env.subscription = some sub ∧ planCheck env sub = none ∧
      (env.decode e).length < DOCUMENT_MAX_LEN ∧
      env.find_category e.category_id = none ∧
      upload_document env m e = ([], Except.error (DomainError.categoryNotFound e.category_id))) ∨
    (∃ sub, env.subscription = some sub ∧ planCheck env sub = none ∧
      (env.decode e).length < DOCUMENT_MAX_LEN ∧
      (∃ cat, env.find_category e.category_id = some cat) ∧
      env.s3_upload_ok = false ∧
      upload_document env m e =
        ([Event.blobUpload env.s3_key e.content_bytes e.format.value],
         Except.error DomainError.blobStoreFailure)) ∨
    (∃ sub, env.subscription = some sub ∧ planCheck env sub = none ∧
      (env.decode e).length < DOCUMENT_MAX_LEN ∧
      (∃ cat, env.find_category e.category_id = some cat) ∧
      env.s3_upload_ok = true ∧
      upload_document env m e =
        (successTrace env m e sub, Except.ok ⟨env.generated_document_id⟩)) := by
  rcases hsub : env.subscription with _ | sub
  · exact Or.inl ⟨rfl, by simp [upload_document, hsub]⟩
  · rcases hplan : planCheck env sub with _ | err
    · have hplan2 : checkPlanLimit sub.plan_type
          (get_num_uploaded_documents_for_current_subscription_by_member_id sub
            env.document_uploads)
          env.FREE_PLAN_MONTHLY_MAX_DOCUMENT_NUM env.PRO_PLAN_MONTHLY_MAX_DOCUMENT_NUM
          = none := by
        simpa [planCheck, currentCount] using hplan
      by_cases hlen : DOCUMENT_MAX_LEN ≤ (env.decode e).length
      · exact Or.inr (Or.inr (Or.inl ⟨sub, rfl, hplan, hlen,
          by simp [upload_document, hsub, hplan2, hlen]⟩))
      · rcases hcat : env.find_category e.category_id with _ | cat
        · exact Or.inr (Or.inr (Or.inr (Or.inl ⟨sub, rfl, hplan, by omega, rfl,
            by simp [upload_document, hsub, hplan2, hlen, hcat]⟩)))
        · cases hs3 : env.s3_upload_ok
          · exact Or.inr (Or.inr (Or.inr (Or.inr (Or.inl
              ⟨sub, rfl, hplan, by omega, ⟨cat, rfl⟩, rfl,
                by simp [upload_document, hsub, hplan2, hlen, hcat, hs3]⟩))))
          · exact Or.inr (Or.inr (Or.inr (Or.inr (Or.inr
              ⟨sub, rfl, hplan, by omega, ⟨cat, rfl⟩, rfl,
                by simp [upload_document, successTrace, hsub, hplan2, hlen, hcat, hs3]⟩))))
    · have hplan2 : checkPlanLimit sub.plan_type
          (get_num_uploaded_documents_for_current_subscription_by_member_id sub
            env.document_uploads)
          env.FREE_PLAN_MONTHLY_MAX_DOCUMENT_NUM env.PRO_PLAN_MONTHLY_MAX_DOCUMENT_NUM
          = some err := by
        simpa [planCheck, currentCount] using hplan
      exact Or.inr (Or.inl ⟨sub, err, rfl, hplan,
        by simp [upload_document, hsub, hplan2]⟩)

lemma checkPlanLimit_ne_invalid (pt : SubscriptionPlanType) (n f p : Nat) :
    checkPlanLimit pt n f p ≠ some DomainError.invalidPlanType := by
  cases pt <;> simp [checkPlanLimit]

lemma planCheck_none_of_below (env : UploadEnv) (sub : Subscription)
    (h : currentCount env sub < planMax env sub.plan_type) :
    planCheck env sub = none := by
  cases hpt : sub.plan_type <;> rw [hpt] at h <;> simp [planMax] at h <;>
    simp [planCheck, checkPlanLimit, hpt] <;> omega

lemma planCheck_some_of_reached (env : UploadEnv) (sub : Subscription)
    (h : planMax env sub.plan_type ≤ currentCount env sub) :
    planCheck env sub = some (planLimitError sub.plan_type) := by
  cases hpt : sub.plan_type <;> rw [hpt] at h <;> simp [planMax] at h <;>
    simp [planCheck, checkPlanLimit, planLimitError, hpt, h]

lemma planMax_update (env : UploadEnv) (s : List DocumentUpload) (pt : SubscriptionPlanType) :
    planMax { env with document_uploads := s } pt = planMax env pt := by
  cases pt <;> rfl

lemma good_update_uploads (env : UploadEnv) (e : EDocument) (sub : Subscription)
    (s : List DocumentUpload) (hg : GoodUploadEnv env e sub) :
    GoodUploadEnv { env with document_uploads := s } e sub := hg

lemma upload_ok_of_good (env : UploadEnv) (m : String) (e : EDocument) (sub : Subscription)
    (hg : GoodUploadEnv env e sub)
    (hcount : currentCount env sub < planMax env sub.plan_type) :
    (upload_document env m e).2 = Except.ok ⟨env.generated_document_id⟩ := by
  obtain ⟨hsub, hn1, hn2, hlen, ⟨cat, hcat⟩, hs3⟩ := hg
  have hplan : checkPlanLimit sub.plan_type
      (get_num_uploaded_documents_for_current_subscription_by_member_id sub
        env.document_uploads)
      env.FREE_PLAN_MONTHLY_MAX_DOCUMENT_NUM env.PRO_PLAN_MONTHLY_MAX_DOCUMENT_NUM
      = none := by
    simpa [planCheck, currentCount] using planCheck_none_of_below env sub hcount
  simp [upload_document, hsub, hplan, Nat.not_le.mpr hlen, hcat, hs3]

lemma upload_limit_of_reached (env : UploadEnv) (m : String) (e : EDocument) (sub : Subscription)
    (hsub : env.subscription = some sub)
    (hcount : planMax env sub.plan_type ≤ currentCount env sub) :
    (upload_document env m e).2 = Except.error (planLimitError sub.plan_type) := by
  have hplan : checkPlanLimit sub.plan_type
      (get_num_uploaded_documents_for_current_subscription_by_member_id sub
        env.document_uploads)
      env.FREE_PLAN_MONTHLY_MAX_DOCUMENT_NUM env.PRO_PLAN_MONTHLY_MAX_DOCUMENT_NUM
      = some (planLimitError sub.plan_type) := by
    simpa [planCheck, currentCount] using planCheck_some_of_reached env sub hcount
  simp [upload_document, hsub, hplan]

lemma runUploads_count (env : UploadEnv) (m : String) (e : EDocument) (sub : Subscription)
    (hg : GoodUploadEnv env e sub) (h0 : env.document_uploads = []) :
    ∀ k, k ≤ planMax env sub.plan_type →
      get_num_uploaded_documents_for_current_subscription_by_member_id sub
        (runUploads env m e k) = k := by
  intro k
  induction k with
  | zero =>
    intro _
    simp [runUploads, h0, get_num_uploaded_documents_for_current_subscription_by_member_id]
  | succ n ih =>
    intro hk
    have hcnt := ih (Nat.le_of_succ_le hk)
    have hok : (upload_document { env with document_uploads := runUploads env m e n } m e).2 =
        Except.ok ⟨env.generated_document_id⟩ := by
      apply upload_ok_of_good _ _ _ sub (good_update_uploads env e sub _ hg)
      have hcc : currentCount { env with document_uploads := runUploads env m e n } sub = n := by
        simpa [currentCount] using hcnt
      rw [hcc, planMax_update]
      omega
    obtain ⟨hsub, hn1, hn2, _, _, _⟩ := hg
    rw [runUploads]
    simp only [hok]
    simp [get_num_uploaded_documents_for_current_subscription_by_member_id,
      List.filter_append, hn1, hn2] at hcnt ⊢
    omega

/-! ### Claim theorems -/

/-- C1: the quota count returned by
`get_num_uploaded_documents_for_current_subscription_by_member_id`
equals the number of the member's `DocumentUpload` records whose upload
timestamp lies in the half-open interval
`[purchased_date, expire_date)`; a record exactly at `expire_date` is
excluded from the count, one exactly at `purchased_date` is included. -/
theorem quota_count_half_open_interval (sub : Subscription) (uploads : List DocumentUpload) :
    get_num_uploaded_documents_for_current_subscription_by_member_id sub uploads =
      (uploads.filter fun doc =>
        decide (sub.purchased_date ≤ doc.upload_date ∧
          doc.upload_date < sub.expire_date)).length ∧
    (∀ d : DocumentUpload, d.upload_date = sub.expire_date →
      get_num_uploaded_documents_for_current_subscription_by_member_id sub (uploads ++ [d]) =
        get_num_uploaded_documents_for_current_subscription_by_member_id sub uploads) ∧
    (∀ d : DocumentUpload, d.upload_date = sub.purchased_date →
      sub.purchased_date < sub.expire_date →
      get_num_uploaded_documents_for_current_subscription_by_member_id sub (uploads ++ [d]) =
        get_num_uploaded_documents_for_current_subscription_by_member_id sub uploads + 1) := by
  refine ⟨rfl, ?_, ?_⟩
  · intro d hd
    simp [get_num_uploaded_documents_for_current_subscription_by_member_id,
      List.filter_append, hd]
  · intro d hd hlt
    simp [get_num_uploaded_documents_for_current_subscription_by_member_id,
      List.filter_append, hd, hlt]

/-- Witness for C1: with period `[0, 10)` and one prior in-period
record, a record at timestamp 10 (= `expire_date`) leaves the count
unchanged, and one at timestamp 0 (= `purchased_date`) raises it by
one. -/
theorem quota_count_half_open_interval_witness :
    (get_num_uploaded_documents_for_current_subscription_by_member_id
        ⟨SubscriptionPlanType.FREE, 0, 10⟩
        ([⟨"m1", 1, 3⟩] ++ [⟨"m1", 2, 10⟩]) =
      get_num_uploaded_documents_for_current_subscription_by_member_id
        ⟨SubscriptionPlanType.FREE, 0, 10⟩ [⟨"m1", 1, 3⟩]) ∧
    (get_num_uploaded_documents_for_current_subscription_by_member_id
        ⟨SubscriptionPlanType.FREE, 0, 10⟩
        ([⟨"m1", 1, 3⟩] ++ [⟨"m1", 3, 0⟩]) =
      get_num_uploaded_documents_for_current_subscription_by_member_id
        ⟨SubscriptionPlanType.FREE, 0, 10⟩ [⟨"m1", 1, 3⟩] + 1) :=
  ⟨(quota_count_half_open_interval ⟨SubscriptionPlanType.FREE, 0, 10⟩ [⟨"m1", 1, 3⟩]).2.1
      ⟨"m1", 2, 10⟩ rfl,
   (quota_count_half_open_interval ⟨SubscriptionPlanType.FREE, 0, 10⟩ [⟨"m1", 1, 3⟩]).2.2
      ⟨"m1", 3, 0⟩ rfl (by decide)⟩

/-- C10: the plan type is a closed enumeration `{FREE, PRO}`, so the
`InvalidPlanType` branch of `upload_document` is unreachable: no
execution fails with `invalidPlanType`. -/
theorem upload_document_never_invalid_plan_type (env : UploadEnv) (m : String) (e : EDocument) :
    (upload_document env m e).2 ≠ Except.error DomainError.invalidPlanType := by
  rcases upload_document_cases env m e with hc | hc | hc | hc | hc | hc
  · rw [hc.2]; simp
  · obtain ⟨sub, err, hsub, hplan, h⟩ := hc
    rw [h]
    have hne : err ≠ DomainError.invalidPlanType := by
      intro he
      rw [he] at hplan
      exact checkPlanLimit_ne_invalid sub.plan_type (currentCount env sub)
        env.FREE_PLAN_MONTHLY_MAX_DOCUMENT_NUM env.PRO_PLAN_MONTHLY_MAX_DOCUMENT_NUM
        (by simpa [planCheck] using hplan)
    intro hcon
    simp at hcon
    exact hne hcon
  · obtain ⟨sub, _, _, _, h⟩ := hc; rw [h]; simp
  · obtain ⟨sub, _, _, _, _, h⟩ := hc; rw [h]; simp
  · obtain ⟨sub, _, _, _, _, _, h⟩ := hc; rw [h]; simp
  · obtain ⟨sub, _, _, _, _, _, h⟩ := hc; rw [h]; simp

/-- C2: if the plan is FREE and the current-period count has reached
`FREE_PLAN_MONTHLY_MAX_DOCUMENT_NUM`, `upload_document` fails with the
FREE limit error; analogously for PRO; below the respective limit
neither quota error is raised; and starting from an empty upload history
in an otherwise passing environment, each of the first `planMax`
sequential uploads succeeds and the next one fails with the plan's quota
error. -/
theorem upload_document_plan_limits (env : UploadEnv) (m : String) (e : EDocument) :
    (∀ sub, env.subscription = some sub →
      (sub.plan_type = SubscriptionPlanType.FREE →
        env.FREE_PLAN_MONTHLY_MAX_DOCUMENT_NUM ≤ currentCount env sub →
        (upload_document env m e).2 =
          Except.error DomainError.freePlanDocumentUploadLimitExceed) ∧
      (sub.plan_type = SubscriptionPlanType.PRO →
        env.PRO_PLAN_MONTHLY_MAX_DOCUMENT_NUM ≤ currentCount env sub →
        (upload_document env m e).2 =
          Except.error DomainError.proPlanDocumentUploadLimitExceed) ∧
      (sub.plan_type = SubscriptionPlanType.FREE →
        currentCount env sub < env.FREE_PLAN_MONTHLY_MAX_DOCUMENT_NUM →
        (upload_document env m e).2 ≠
          Except.error DomainError.freePlanDocumentUploadLimitExceed ∧
        (upload_document env m e).2 ≠
          Except.error DomainError.proPlanDocumentUploadLimitExceed) ∧
      (sub.plan_type = SubscriptionPlanType.PRO →
        currentCount env sub < env.PRO_PLAN_MONTHLY_MAX_DOCUMENT_NUM →
        (upload_document env m e).2 ≠
          Except.error DomainError.freePlanDocumentUploadLimitExceed ∧
        (upload_document env m e).2 ≠
          Except.error DomainError.proPlanDocumentUploadLimitExceed)) ∧
    (∀ sub, GoodUploadEnv env e sub → env.document_uploads = [] →
      (∀ k, k < planMax env sub.plan_type →
        (upload_document { env with document_uploads := runUploads env m e k } m e).2 =
          Except.ok ⟨env.generated_document_id⟩) ∧
      (upload_document
          { env with document_uploads := runUploads env m e (planMax env sub.plan_type) }
          m e).2 =
        Except.error (planLimitError sub.plan_type)) := by
  constructor
  · intro sub hsub
    have hbelow : ∀ hcount : currentCount env sub < planMax env sub.plan_type,
        (upload_document env m e).2 ≠
          Except.error DomainError.freePlanDocumentUploadLimitExceed ∧
        (upload_document env m e).2 ≠
          Except.error DomainError.proPlanDocumentUploadLimitExceed := by
      intro hcount
      have hplan := planCheck_none_of_below env sub hcount
      rcases upload_document_cases env m e with hc | hc | hc | hc | hc | hc
      · rw [hc.1] at hsub; exact absurd hsub (by simp)
      · obtain ⟨sub2, err, hsub2, hplan2, h⟩ := hc
        rw [hsub] at hsub2
        obtain rfl : sub2 = sub := (Option.some.inj hsub2).symm
        rw [hplan] at hplan2
        exact absurd hplan2 (by simp)
      · obtain ⟨sub2, _, _, _, h⟩ := hc; rw [h]; simp
      · obtain ⟨sub2, _, _, _, _, h⟩ := hc; rw [h]; simp
      · obtain ⟨sub2, _, _, _, _, _, h⟩ := hc; rw [h]; simp
      · obtain ⟨sub2, _, _, _, _, _, h⟩ := hc; rw [h]; simp
    refine ⟨?_, ?_, ?_, ?_⟩
    · intro hpt hcount
      have := upload_limit_of_reached env m e sub hsub
        (by rw [hpt]; simpa [planMax] using hcount)
      rwa [hpt, planLimitError] at this
    · intro hpt hcount
      have := upload_limit_of_reached env m e sub hsub
        (by rw [hpt]; simpa [planMax] using hcount)
      rwa [hpt, planLimitError] at this
    · intro hpt hcount
      exact hbelow (by rw [hpt]; simpa [planMax] using hcount)
    · intro hpt hcount
      exact hbelow (by rw [hpt]; simpa [planMax] using hcount)
  · intro sub hg h0
    have hcnt := runUploads_count env m e sub hg h0
    constructor
    · intro k hk
      apply upload_ok_of_good _ _ _ sub (good_update_uploads env e sub _ hg)
      have hcc : currentCount { env with document_uploads := runUploads env m e k } sub = k := by
        simpa [currentCount] using hcnt k (Nat.le_of_lt hk)
      rw [hcc, planMax_update]
      exact hk
    · have hsub2 : ({ env with
          document_uploads := runUploads env m e (planMax env sub.plan_type) } :
            UploadEnv).subscription = some sub := hg.1
      apply upload_limit_of_reached _ _ _ sub hsub2
      have hcc : currentCount
          { env with document_uploads := runUploads env m e (planMax env sub.plan_type) } sub =
          planMax env sub.plan_type := by
        simpa [currentCount] using hcnt (planMax env sub.plan_type) le_rfl
      rw [hcc, planMax_update]

/-- Witness for C2: with the FREE limit 3 and three in-period uploads
recorded, the next upload fails with the FREE quota error; starting from
an empty history, the third upload (index 2) succeeds and the attempt
after the third success fails with the FREE quota error. -/
theorem upload_document_plan_limits_witness :
    ((upload_document envFullW "m1" edocW).2 =
      Except.error DomainError.freePlanDocumentUploadLimitExceed) ∧
    ((upload_document { envW with document_uploads := runUploads envW "m1" edocW 2 }
        "m1" edocW).2 = Except.ok ⟨11⟩) ∧
    ((upload_document { envW with document_uploads := runUploads envW "m1" edocW 3 }
        "m1" edocW).2 = Except.error DomainError.freePlanDocumentUploadLimitExceed) := by
  have hgood : GoodUploadEnv envW edocW ⟨SubscriptionPlanType.FREE, 0, 10⟩ :=
    ⟨rfl, by decide, by decide, by decide, ⟨⟨7, "cat"⟩, rfl⟩, rfl⟩
  have h1 := ((upload_document_plan_limits envFullW "m1" edocW).1
    ⟨SubscriptionPlanType.FREE, 0, 10⟩ rfl).1 rfl (by decide)
  have h2 := (upload_document_plan_limits envW "m1" edocW).2
    ⟨SubscriptionPlanType.FREE, 0, 10⟩ hgood rfl
  exact ⟨h1, h2.1 2 (by decide), h2.2⟩

/-- C4: every successful `upload_document` enqueues exactly one message,
of the shape of `SQSMessage` (storage key : string, document id :
integer, subscription plan : string), carrying the generated storage
key, the generated document id, and the plan type rendered as a
string. -/
theorem upload_document_enqueue_payload (env : UploadEnv) (m : String) (e : EDocument)
    (r : UploadDocumentResponse) (h : (upload_document env m e).2 = Except.ok r) :
    ∃ sub, env.subscription = some sub ∧
      r.id = env.generated_document_id ∧
      enqueuedMessages (upload_document env m e).1 =
        [{ s3_key := env.s3_key, db_pk := r.id,
           subscription_plan := sub.plan_type.value }] := by
  rcases upload_document_cases env m e with hc | hc | hc | hc | hc | hc
  · rw [hc.2] at h; exact absurd h (by simp)
  · obtain ⟨_, _, _, _, hu⟩ := hc; rw [hu] at h; exact absurd h (by simp)
  · obtain ⟨_, _, _, _, hu⟩ := hc; rw [hu] at h; exact absurd h (by simp)
  · obtain ⟨_, _, _, _, _, hu⟩ := hc; rw [hu] at h; exact absurd h (by simp)
  · obtain ⟨_, _, _, _, _, _, hu⟩ := hc; rw [hu] at h; exact absurd h (by simp)
  · obtain ⟨sub, hsub, _, _, _, _, hu⟩ := hc
    rw [hu] at h
    have hr : r = ⟨env.generated_document_id⟩ := by
      simpa using h.symm
    refine ⟨sub, hsub, by rw [hr], ?_⟩
    rw [hu, hr]
    simp [enqueuedMessages, successTrace]

/-- Witness for C4: on the concrete passing environment the queue
message is exactly the generated key, the generated id and the plan
string. -/
theorem upload_document_enqueue_payload_witness :
    ∃ sub, envW.subscription = some sub ∧
      (⟨11⟩ : UploadDocumentResponse).id = envW.generated_document_id ∧
      enqueuedMessages (upload_document envW "m1" edocW).1 =
        [{ s3_key := envW.s3_key, db_pk := (⟨11⟩ : UploadDocumentResponse).id,
           subscription_plan := sub.plan_type.value }] :=
  upload_document_enqueue_payload envW "m1" edocW ⟨11⟩ rfl

/-- C9: every successful `upload_document` uses one single storage key
consistently: the generated key `env.s3_key` is the key of the blob
upload, the key assigned to the entity, the key persisted with the
document metadata, and the key carried in the enqueued message. -/
theorem upload_document_single_storage_key (env : UploadEnv) (m : String) (e : EDocument)
    (r : UploadDocumentResponse) (h : (upload_document env m e).2 = Except.ok r) :
    ∃ sub, env.subscription = some sub ∧
      (upload_document env m e).1 =
        [Event.blobUpload env.s3_key e.content_bytes e.format.value,
         Event.assignKey env.s3_key,
         Event.saveDocument env.s3_key r.id,
         Event.saveDocumentUpload m r.id env.now,
         Event.enqueue ⟨env.s3_key, r.id, sub.plan_type.value⟩] := by
  rcases upload_document_cases env m e with hc | hc | hc | hc | hc | hc
  · rw [hc.2] at h; exact absurd h (by simp)
  · obtain ⟨_, _, _, _, hu⟩ := hc; rw [hu] at h; exact absurd h (by simp)
  · obtain ⟨_, _, _, _, hu⟩ := hc; rw [hu] at h; exact absurd h (by simp)
  · obtain ⟨_, _, _, _, _, hu⟩ := hc; rw [hu] at h; exact absurd h (by simp)
  · obtain ⟨_, _, _, _, _, _, hu⟩ := hc; rw [hu] at h; exact absurd h (by simp)
  · obtain ⟨sub, hsub, _, _, _, _, hu⟩ := hc
    rw [hu] at h
    have hr : r = ⟨env.generated_document_id⟩ := by
      simpa using h.symm
    refine ⟨sub, hsub, ?_⟩
    rw [hu, hr]
    simp [successTrace]

/-- Witness for C9: the success trace of the concrete passing
environment carries the key "key1" in all four places. -/
theorem upload_document_single_storage_key_witness :
    ∃ sub, envW.subscription = some sub ∧
      (upload_document envW "m1" edocW).1 =
        [Event.blobUpload envW.s3_key edocW.content_bytes edocW.format.value,
         Event.assignKey envW.s3_key,
         Event.saveDocument envW.s3_key (⟨11⟩ : UploadDocumentResponse).id,
         Event.saveDocumentUpload "m1" (⟨11⟩ : UploadDocumentResponse).id envW.now,
         Event.enqueue ⟨envW.s3_key, (⟨11⟩ : UploadDocumentResponse).id,
           sub.plan_type.value⟩] :=
  upload_document_single_storage_key envW "m1" edocW ⟨11⟩ rfl

/-- C5: when the earlier checks pass (a subscription exists and the
quota is below the plan limit), decoded length at least
`DOCUMENT_MAX_LEN` (15,000) makes `upload_document` fail with the
document-too-large error; decoded length strictly below 15,000 never
produces that error. -/
theorem upload_document_length_check (env : UploadEnv) (m : String) (e : EDocument) :
    (∀ sub, env.subscription = some sub →
      currentCount env sub < planMax env sub.plan_type →
      DOCUMENT_MAX_LEN ≤ (env.decode e).length →
      (upload_document env m e).2 = Except.error DomainError.documentMaxLengthExceed) ∧
    ((env.decode e).length < DOCUMENT_MAX_LEN →
      (upload_document env m e).2 ≠ Except.error DomainError.documentMaxLengthExceed) := by
  constructor
  · intro sub hsub hcount hlen
    have hplan : checkPlanLimit sub.plan_type
        (get_num_uploaded_documents_for_current_subscription_by_member_id sub
          env.document_uploads)
        env.FREE_PLAN_MONTHLY_MAX_DOCUMENT_NUM env.PRO_PLAN_MONTHLY_MAX_DOCUMENT_NUM
        = none := by
      simpa [planCheck, currentCount] using planCheck_none_of_below env sub hcount
    simp [upload_document, hsub, hplan, hlen]
  · intro hlen
    rcases upload_document_cases env m e with hc | hc | hc | hc | hc | hc
    · rw [hc.2]; simp
    · obtain ⟨sub, err, hsub, hplan, hu⟩ := hc
      rw [hu]
      have : err ≠ DomainError.documentMaxLengthExceed := by
        intro he
        rw [he] at hplan
        rcases sub with ⟨pt, pd, ed⟩
        cases pt <;> simp [planCheck, checkPlanLimit] at hplan
      intro hcon
      simp at hcon
      exact this hcon
    · obtain ⟨sub, _, hbig, _⟩ := hc; omega
    · obtain ⟨sub, _, _, _, _, hu⟩ := hc; rw [hu]; simp
    · obtain ⟨sub, _, _, _, _, _, hu⟩ := hc; rw [hu]; simp
    · obtain ⟨sub, _, _, _, _, _, hu⟩ := hc; rw [hu]; simp

/-- Witness for C5: decoded content of exactly 15,000 characters fails
with the document-too-large error; decoded content of 3 characters does
not produce that error. -/
theorem upload_document_length_check_witness :
    ((upload_document envBigW "m1" edocW).2 =
      Except.error DomainError.documentMaxLengthExceed) ∧
    ((upload_document envW "m1" edocW).2 ≠
      Except.error DomainError.documentMaxLengthExceed) :=
  ⟨(upload_document_length_check envBigW "m1" edocW).1 ⟨SubscriptionPlanType.FREE, 0, 10⟩
      rfl (by decide)
      (le_of_eq (show (envBigW.decode edocW).length = DOCUMENT_MAX_LEN by
        show (List.replicate DOCUMENT_MAX_LEN 'a').length = DOCUMENT_MAX_LEN
        exact List.length_replicate _ _).symm),
   (upload_document_length_check envW "m1" edocW).2 (by decide)⟩

/-- C3: `upload_document` never persists document metadata without a
prior successful blob upload: a failing blob store means zero
metadata-save events; every metadata-save event in a trace is preceded
by a blob-upload event; and the storage key is assigned at most once,
exactly once and before the metadata save whenever metadata is
saved. -/
theorem upload_document_blob_before_metadata (env : UploadEnv) (m : String) (e : EDocument) :
    (env.s3_upload_ok = false →
      (upload_document env m e).1.countP Event.isSaveDocument = 0) ∧
    (∀ j, j < (upload_document env m e).1.length →
      Event.isSaveDocument ((upload_document env m e).1.getD j defaultEvent) = true →
      ∃ i, i < j ∧
        Event.isBlobUpload ((upload_document env m e).1.getD i defaultEvent) = true) ∧
    ((upload_document env m e).1.countP Event.isAssignKey ≤ 1) ∧
    (0 < (upload_document env m e).1.countP Event.isSaveDocument →
      (upload_document env m e).1.countP Event.isAssignKey = 1 ∧
      ∀ j, j < (upload_document env m e).1.length →
        Event.isSaveDocument ((upload_document env m e).1.getD j defaultEvent) = true →
        ∃ i, i < j ∧
          Event.isAssignKey ((upload_document env m e).1.getD i defaultEvent) = true) := by
  have empty_case : ∀ tr2 : Except DomainError UploadDocumentResponse,
      upload_document env m e = ([], tr2) →
      ((env.s3_upload_ok = false →
        (upload_document env m e).1.countP Event.isSaveDocument = 0) ∧
      (∀ j, j < (upload_document env m e).1.length →
        Event.isSaveDocument ((upload_document env m e).1.getD j defaultEvent) = true →
        ∃ i, i < j ∧
          Event.isBlobUpload ((upload_document env m e).1.getD i defaultEvent) = true) ∧
      ((upload_document env m e).1.countP Event.isAssignKey ≤ 1) ∧
      (0 < (upload_document env m e).1.countP Event.isSaveDocument →
        (upload_document env m e).1.countP Event.isAssignKey = 1 ∧
        ∀ j, j < (upload_document env m e).1.length →
          Event.isSaveDocument ((upload_document env m e).1.getD j defaultEvent) = true →
          ∃ i, i < j ∧
            Event.isAssignKey ((upload_document env m e).1.getD i defaultEvent) = true)) := by
    intro tr2 hu
    rw [hu]
    refine ⟨fun _ => rfl, ?_, by simp, ?_⟩
    · intro j hj
      simp at hj
    · intro hpos
      simp at hpos
  rcases upload_document_cases env m e with hc | hc | hc | hc | hc | hc
  · exact empty_case _ hc.2
  · obtain ⟨_, _, _, _, hu⟩ := hc; exact empty_case _ hu
  · obtain ⟨_, _, _, _, hu⟩ := hc; exact empty_case _ hu
  · obtain ⟨_, _, _, _, _, hu⟩ := hc; exact empty_case _ hu
  · obtain ⟨_, _, _, _, _, _, hu⟩ := hc
    rw [hu]
    refine ⟨fun _ => by simp [Event.isSaveDocument], ?_, by simp [Event.isAssignKey], ?_⟩
    · intro j hj hsave
      simp at hj
      subst hj
      simp [Event.isSaveDocument] at hsave
    · intro hpos
      simp [Event.isSaveDocument] at hpos
  · obtain ⟨sub, _, _, _, _, hs3, hu⟩ := hc
    rw [hu]
    refine ⟨?_, ?_, by simp [successTrace, Event.isAssignKey], ?_⟩
    · intro hf
      rw [hs3] at hf
      exact absurd hf (by simp)
    · intro j hj hsave
      simp [successTrace] at hj
      interval_cases j <;> simp [successTrace, Event.isSaveDocument] at hsave ⊢
      exact ⟨0, by omega, by simp [Event.isBlobUpload]⟩
    · intro hpos
      refine ⟨by simp [successTrace, Event.isAssignKey], ?_⟩
      intro j hj hsave
      simp [successTrace] at hj
      interval_cases j <;> simp [successTrace, Event.isSaveDocument] at hsave ⊢
      exact ⟨1, by omega, by simp [Event.isAssignKey]⟩

/-- Witness for C3: with the blob store down no metadata-save event
occurs, and in the successful concrete run the metadata save at index 2
is preceded by the blob upload at index 0. -/
theorem upload_document_blob_before_metadata_witness :
    ((upload_document envS3DownW "m1" edocW).1.countP Event.isSaveDocument = 0) ∧
    (∃ i, i < 2 ∧
      Event.isBlobUpload ((upload_document envW "m1" edocW).1.getD i defaultEvent) = true) :=
  ⟨(upload_document_blob_before_metadata envS3DownW "m1" edocW).1 rfl,
   (upload_document_blob_before_metadata envW "m1" edocW).2.1 2 (by decide) (by decide)⟩

/-- C6: `upload_document` is fail-fast: failure with
subscription-not-found, a plan-limit error, document-too-large or
category-not-found leaves an empty side-effect trace (no blob written,
no document or upload record persisted, no queue message); in
particular, when all earlier checks pass and the category does not
exist, the call fails with `categoryNotFound` and makes no blob-store
call. -/
theorem upload_document_fail_fast (env : UploadEnv) (m : String) (e : EDocument) :
    (((upload_document env m e).2 = Except.error DomainError.subscriptionNotFound ∨
      (upload_document env m e).2 =
        Except.error DomainError.freePlanDocumentUploadLimitExceed ∨
      (upload_document env m e).2 =
        Except.error DomainError.proPlanDocumentUploadLimitExceed ∨
      (upload_document env m e).2 = Except.error DomainError.documentMaxLengthExceed ∨
      (∃ cid, (upload_document env m e).2 =
        Except.error (DomainError.categoryNotFound cid))) →
      (upload_document env m e).1 = []) ∧
    (∀ sub, env.subscription = some sub →
      currentCount env sub < planMax env sub.plan_type →
      (env.decode e).length < DOCUMENT_MAX_LEN →
      env.find_category e.category_id = none →
      (upload_document env m e).2 = Except.error (DomainError.categoryNotFound e.category_id) ∧
      (upload_document env m e).1 = []) := by
  constructor
  · intro hd
    rcases upload_document_cases env m e with hc | hc | hc | hc | hc | hc
    · rw [hc.2]
    · obtain ⟨_, _, _, _, hu⟩ := hc; rw [hu]
    · obtain ⟨_, _, _, _, hu⟩ := hc; rw [hu]
    · obtain ⟨_, _, _, _, _, hu⟩ := hc; rw [hu]
    · obtain ⟨_, _, _, _, _, _, hu⟩ := hc
      rw [hu] at hd
      rcases hd with h1 | h1 | h1 | h1 | ⟨cid, h1⟩ <;> simp at h1
    · obtain ⟨_, _, _, _, _, _, hu⟩ := hc
      rw [hu] at hd
      rcases hd with h1 | h1 | h1 | h1 | ⟨cid, h1⟩ <;> simp at h1
  · intro sub hsub hcount hlen hcat
    have hplan : checkPlanLimit sub.plan_type
        (get_num_uploaded_documents_for_current_subscription_by_member_id sub
          env.document_uploads)
        env.FREE_PLAN_MONTHLY_MAX_DOCUMENT_NUM env.PRO_PLAN_MONTHLY_MAX_DOCUMENT_NUM
        = none := by
      simpa [planCheck, currentCount] using planCheck_none_of_below env sub hcount
    constructor <;>
      simp [upload_document, hsub, hplan, Nat.not_le.mpr hlen, hcat]

/-- Witness for C6: without a subscription the trace is empty, and with
everything passing except a nonexistent category 7 the call fails with
`categoryNotFound 7` and an empty trace. -/
theorem upload_document_fail_fast_witness :
    ((upload_document envNoSubW "m1" edocW).1 = []) ∧
    ((upload_document envNoCatW "m1" edocW).2 =
      Except.error (DomainError.categoryNotFound edocW.category_id) ∧
    (upload_document envNoCatW "m1" edocW).1 = []) :=
  ⟨(upload_document_fail_fast envNoSubW "m1" edocW).1 (Or.inl rfl),
   (upload_document_fail_fast envNoCatW "m1" edocW).2 ⟨SubscriptionPlanType.FREE, 0, 10⟩
     rfl (by decide) (by decide) rfl⟩

/-- C7: `get_document_by_id` fails with `documentNotFound` when the
member owns no document with that id; on success the returned question
list is exactly the document's questions with positive delivered-count,
in store order (so it contains no question with delivered-count 0 and
every question with delivered-count above zero). -/
theorem get_document_by_id_delivered_only (env : RetrievalEnv) (m : String)
    (document_id : Nat) :
    (env.find_by_id m document_id = none →
      get_document_by_id env m document_id =
        ([], Except.error (DomainError.documentNotFound document_id))) ∧
    (∀ document, env.find_by_id m document_id = some document →
      ∃ r, (get_document_by_id env m document_id).2 = Except.ok r ∧
        r.questions =
          ((document.questions.filter fun q => decide (0 < q.delivered_count)).map
            fun q => ⟨q.id, q.question, q.answer⟩)) := by
  constructor
  · intro h
    simp [get_document_by_id, h]
  · intro document h
    have hu : get_document_by_id env m document_id =
        ([RetrievalEvent.blobGet document.s3_key],
         Except.ok
           { id := document.id
             status := document.status
             category := ⟨document.category.id, document.category.name⟩
             documentName := document.name
             summary := document.summary
             format := document.format
             createdAt := document.created_at
             questions :=
               ((document.questions.filter fun q => decide (0 < q.delivered_count)).map
                 fun q => ⟨q.id, q.question, q.answer⟩)
             content := env.get_object_content document.s3_key }) := by
      simp [get_document_by_id, h]
    rw [hu]
    exact ⟨_, rfl, rfl⟩

/-- Witness for C7: document 5 exists with one zero-delivered question;
the returned list keeps exactly the two delivered questions in order;
document 99 does not exist and fails with `documentNotFound 99`. -/
theorem get_document_by_id_delivered_only_witness :
    (get_document_by_id retEnvW "m1" 99 =
      ([], Except.error (DomainError.documentNotFound 99))) ∧
    (∃ r, (get_document_by_id retEnvW "m1" 5).2 = Except.ok r ∧
      r.questions =
        ((docW.questions.filter fun q => decide (0 < q.delivered_count)).map
          fun q => ⟨q.id, q.question, q.answer⟩)) :=
  ⟨(get_document_by_id_delivered_only retEnvW "m1" 99).1 rfl,
   (get_document_by_id_delivered_only retEnvW "m1" 5).2 docW rfl⟩

/-- C8: `get_all_documents_by_category` fails with `categoryNotFound`
when the category does not exist for the member; otherwise it returns,
with no blob access (empty retrieval trace) and no question hydration,
exactly the projection (id, name, summary, createdAt) of every document
of the category. -/
theorem get_all_documents_by_category_projection (env : RetrievalEnv) (m : String)
    (category_id : Nat) :
    (env.find_category m category_id = none →
      get_all_documents_by_category env m category_id =
        ([], Except.error (DomainError.categoryNotFound category_id))) ∧
    (∀ cat, env.find_category m category_id = some cat →
      get_all_documents_by_category env m category_id =
        ([], Except.ok ⟨(env.find_all_by_category_id m category_id).map fun document =>
          ⟨document.id, document.name, document.summary, document.created_at⟩⟩)) := by
  constructor
  · intro h
    simp [get_all_documents_by_category, h]
  · intro cat h
    simp [get_all_documents_by_category, h]

/-- Witness for C8: category 42 does not exist and fails with
`categoryNotFound 42`; category 7 exists and yields the projection of
its single document with an empty trace. -/
theorem get_all_documents_by_category_projection_witness :
    (get_all_documents_by_category retEnvW "m1" 42 =
      ([], Except.error (DomainError.categoryNotFound 42))) ∧
    (get_all_documents_by_category retEnvW "m1" 7 =
      ([], Except.ok ⟨(retEnvW.find_all_by_category_id "m1" 7).map fun document =>
        ⟨document.id, document.name, document.summary, document.created_at⟩⟩)) :=
  ⟨(get_all_documents_by_category_projection retEnvW "m1" 42).1 rfl,
   (get_all_documents_by_category_projection retEnvW "m1" 7).2 ⟨7, "cat"⟩ rfl⟩

end Reminder
